import Mathlib

/-!
Verification of the TelegramBotMCP command-dispatch and status-relay core.

The Python source is shallowly embedded: strings are `List Char` (Python
strings are sequences of code points and the handlers slice them
positionally), the transport is a function from attempt index to an
outcome, and each handler is a pure function from its inputs to the
ordered list of outbound events it produces when every send succeeds.
-/

namespace TelegramBot

/-- Python `s[i:i+n] for i in range(0, len(s), n)`: consecutive fixed-size
chunks of a string, in order.  Empty input yields no chunks (range(0,0,n)
is empty); `n = 0` never occurs in the source (thresholds are 4000/3800). -/
def chunksOf (n : Nat) (l : List Char) : List (List Char) :=
  if h : l = [] then []
  else if hn : n = 0 then []
  else l.take n :: chunksOf n (l.drop n)
termination_by l.length
decreasing_by
  simp only [List.length_drop]
  have hl : 0 < l.length := List.length_pos.mpr h
  omega

theorem chunksOf_nil (n : Nat) : chunksOf n [] = [] := by
  unfold chunksOf; simp

theorem chunksOf_cons (n : Nat) (l : List Char) (hl : l ≠ []) (hn : n ≠ 0) :
    chunksOf n l = l.take n :: chunksOf n (l.drop n) := by
  conv_lhs => rw [chunksOf]
  simp [hl, hn]

/-- Concatenating the chunks restores the original string. -/
theorem chunksOf_flatten (n : Nat) (hn : n ≠ 0) (l : List Char) :
    (chunksOf n l).flatten = l := by
  by_cases h : l = []
  · subst h; simp [chunksOf_nil]
  · rw [chunksOf_cons n l h hn, List.flatten_cons,
      chunksOf_flatten n hn (l.drop n)]
    exact List.take_append_drop n l
termination_by l.length
decreasing_by
  simp only [List.length_drop]
  have hpos : 0 < l.length := List.length_pos.mpr h
  omega

/-- A nonempty string of length `len` yields `⌈len / n⌉ = (len + n - 1) / n`
chunks. -/
theorem chunksOf_length (n : Nat) (hn : n ≠ 0) (l : List Char) (hl : l ≠ []) :
    (chunksOf n l).length = (l.length + n - 1) / n := by
  rw [chunksOf_cons n l hl hn]
  have hpos : 0 < l.length := List.length_pos.mpr hl
  by_cases hle : l.length ≤ n
  · have hdrop : l.drop n = [] := by
      apply List.eq_nil_of_length_eq_zero
      simp only [List.length_drop]; omega
    rw [hdrop, chunksOf_nil]
    have h1 : 1 * n ≤ l.length + n - 1 := by omega
    have h2 : l.length + n - 1 < (1 + 1) * n := by omega
    simp only [List.length_cons, List.length_nil]
    rw [Nat.div_eq_of_lt_le h1 h2]
  · have hgt : n < l.length := by omega
    have hdropne : l.drop n ≠ [] := by
      intro hcon
      have := congrArg List.length hcon
      simp only [List.length_drop, List.length_nil] at this
      omega
    rw [List.length_cons, chunksOf_length n hn (l.drop n) hdropne]
    simp only [List.length_drop]
    have heq : l.length + n - 1 = (l.length - n + n - 1) + n := by omega
    rw [heq, Nat.add_div_right _ (Nat.pos_of_ne_zero hn)]
termination_by l.length
decreasing_by
  simp only [List.length_drop]
  omega

/-! ## Delivery primitives (`handlers/commands.py`: `safe_reply`, `safe_edit`)

The transport is a function from attempt index to the outcome of that
attempt's underlying call (`message.reply_text` / `message.edit_text`). -/

/-- Outcome of one underlying transport call: success with a sent message,
a transient error (`NetworkError` / `TimedOut`), or any other exception. -/
inductive TOutcome (α : Type) where
  | ok (m : α)
  | transient
  | fatal
deriving DecidableEq

/-- What `safe_reply` does, seen from its caller. -/
inductive ReplyOutcome (α : Type) where
  | sent (m : α)
  | raised
  | fatalRaised
  | fellThrough
deriving DecidableEq

/-- What `safe_edit` does, seen from its caller: it returns an optional
message, or propagates a non-transient exception. -/
inductive EditOutcome (α : Type) where
  | returned (m : Option α)
  | fatalRaised
deriving DecidableEq

/-- A delivery call together with the number of transport attempts it made
and the backoff waits (in time units) it performed, in order. -/
structure CallTrace (ρ : Type) where
  result : ρ
  attempts : Nat
  waits : List Nat
deriving DecidableEq

/-- The `for attempt in range(max_retries)` loop of `safe_reply`,
structurally recursive on the remaining iteration count. -/
def safeReplyGo (t : Nat → TOutcome α) (maxRetries : Nat) :
    Nat → Nat → List Nat → CallTrace (ReplyOutcome α)
  | 0, attempt, waits => ⟨.fellThrough, attempt, waits⟩
  | remaining + 1, attempt, waits =>
    match t attempt with
    | .ok m => ⟨.sent m, attempt + 1, waits⟩
    | .transient =>
      if attempt < maxRetries - 1 then
        safeReplyGo t maxRetries remaining (attempt + 1) (waits ++ [2 ^ attempt])
      else ⟨.raised, attempt + 1, waits⟩
    | .fatal => ⟨.fatalRaised, attempt + 1, waits⟩

/-- Python `safe_reply(message, text, max_retries=3)`: retry on transient errors
with exponential backoff `2 ** attempt`; re-raise after the last attempt. -/
def safe_reply (t : Nat → TOutcome α) : CallTrace (ReplyOutcome α) :=
  safeReplyGo t 3 3 0 []

/-- The `for attempt in range(max_retries)` loop of `safe_edit`. -/
def safeEditGo (t : Nat → TOutcome α) (maxRetries : Nat) :
    Nat → Nat → List Nat → CallTrace (EditOutcome α)
  | 0, attempt, waits => ⟨.returned none, attempt, waits⟩
  | remaining + 1, attempt, waits =>
    match t attempt with
    | .ok m => ⟨.returned (some m), attempt + 1, waits⟩
    | .transient =>
      if attempt < maxRetries - 1 then
        safeEditGo t maxRetries remaining (attempt + 1) (waits ++ [2 ^ attempt])
      else ⟨.returned none, attempt + 1, waits⟩
    | .fatal => ⟨.fatalRaised, attempt + 1, waits⟩

/-- Python `safe_edit(message, text, max_retries=3)`: same retry loop, but on the
last attempt's transient failure it returns `None` instead of raising. -/
def safe_edit (t : Nat → TOutcome α) : CallTrace (EditOutcome α) :=
  safeEditGo t 3 3 0 []

/-! ## Command handlers (`handlers/commands.py`)

Each handler is embedded as a pure function from its inputs (argument
tokens and the backend call's outcome) to the ordered list of outbound
events it produces when every transport send succeeds. -/

/-- An outbound event of a handler: a fresh reply, the creation of the
status placeholder message, or an edit of that status message. -/
inductive Event where
  | reply (text : List Char)
  | statusCreate (text : List Char)
  | statusEdit (text : List Char)
deriving DecidableEq

def fetchUsageText : List Char := "Please provide a URL.\nUsage: /fetch <url>".data

def fetchTruncMarker : List Char := "\n\n... (truncated)".data

/-- Handler `fetch_command`: validate, announce, fetch, truncate to 4000 characters
with a marker when longer, reply once.  `backend` is the outcome of
`fetch_url_content(url)` (text returned, or the raised error's message). -/
def fetch_command : List String → Except (List Char) (List Char) → List Event
  | [], _ => [.reply fetchUsageText]
  | url :: _, backend =>
    .reply ("Fetching content from: " ++ url ++ "\n\nPlease wait...").data ::
    match backend with
    | .ok content =>
      let content2 := if content.length > 4000
        then content.take 4000 ++ fetchTruncMarker
        else content
      [.reply ("Content:\n\n".data ++ content2)]
    | .error e => [.reply ("Error fetching URL: ".data ++ e)]

/-- Error raised by `query_deepseek`: `ValueError` (API key unset) or any
other exception with its message. -/
inductive QAError where
  | valueError
  | otherError (msg : List Char)
deriving DecidableEq

def deepseekUsage : List Char := "请提供问题。\n用法: /deepseek <你的问题>".data

def deepseekSingleLabel : List Char := "📝 回答:\n\n".data

def deepseekChunkLabel (i : Nat) : List Char :=
  ("📝 回答 (第" ++ toString (i + 1) ++ "部分):\n\n").data

/-- The final-reply `(label, body)` pairs of the deepseek success path:
4000-character chunks when the response is longer than 4000. -/
def deepseekReplies (response : List Char) : List (List Char × List Char) :=
  if response.length > 4000 then
    (chunksOf 4000 response).enum.map (fun p => (deepseekChunkLabel p.1, p.2))
  else [(deepseekSingleLabel, response)]

/-- Handler `deepseek_command`: validate, create status, edit status, query the
backend, then reply (chunked when long) or report the error. -/
def deepseek_command (args : List String) (backend : Except QAError (List Char)) :
    List Event :=
  if args = [] then [.reply deepseekUsage]
  else
    .statusCreate "🤔 DeepSeek正在思考...".data ::
    .statusEdit "🤔 DeepSeek正在处理您的问题...".data ::
    match backend with
    | .ok response =>
      .statusEdit "✅ DeepSeek已完成回答".data ::
      (deepseekReplies response).map (fun p => .reply (p.1 ++ p.2))
    | .error .valueError =>
      [.statusEdit "⚠️ DeepSeek API未配置".data,
       .reply "⚠️ DeepSeek API未配置。请在.env文件中设置DEEPSEEK_API_KEY。".data]
    | .error (.otherError m) =>
      [.statusEdit "❌ DeepSeek执行失败".data,
       .reply ("❌ 错误: ".data ++ m ++ "\n\n请稍后重试。".data)]

/-- Python `str.strip()` on a sequence of characters: drop whitespace from
both ends. -/
def pyStrip (l : List Char) : List Char :=
  ((l.dropWhile Char.isWhitespace).reverse.dropWhile Char.isWhitespace).reverse

/-- The execution result dict `{stdout, stderr, return_code, success}`. -/
structure ExecResult where
  stdout : List Char
  stderr : List Char
  return_code : Int
  success : Bool
deriving DecidableEq

/-- One event of the streaming code-execution adapter: a dict with
`type` in `{status, progress, result}` and its payload. -/
inductive StatusUpdate where
  | status (message : List Char)
  | progress (message : List Char)
  | result (data : ExecResult)
deriving DecidableEq

def claudeUsage : List Char :=
  ("请提供操作描述。\n用法: /claude <操作描述>\n\n示例:\n• /claude 列出当前目录的文件\n" ++
   "• /claude 创建一个名为test.txt的文件\n• /claude 帮我写一个Python脚本计算斐波那契数列").data

def claudeStartMsg : List Char := "💻 Claude Code正在启动...".data

def claudeDoneMsg : List Char := "✅ Claude Code执行完成".data

def claudeFailMsg : List Char := "❌ Claude Code执行失败".data

def claudeSingleLabel : List Char := "📄 输出:\n\n".data

def claudeChunkLabel (i total : Nat) : List Char :=
  ("📄 输出 (第" ++ toString (i + 1) ++ "/" ++ toString total ++ "部分):\n\n").data

def claudeFallback : List Char := "执行成功，无输出内容。".data

def claudeTruncMarker : List Char := "\n\n... (已截断)".data

/-- Source lines `output = result['stdout'].strip()` and the fallback assignment. -/
def claudeOutput (stdout : List Char) : List Char :=
  if pyStrip stdout = [] then claudeFallback else pyStrip stdout

/-- The final-reply `(label, body)` pairs of the claude success path:
3800-character chunks, each labeled with position and total count. -/
def claudeReplies (output : List Char) : List (List Char × List Char) :=
  if output.length > 3800 then
    let chunks := chunksOf 3800 output
    chunks.enum.map (fun p => (claudeChunkLabel p.1 chunks.length, p.2))
  else [(claudeSingleLabel, output)]

/-- Events produced for the terminal `result` stream element. -/
def claudeResultEvents (r : ExecResult) : List Event :=
  if r.success then
    .statusEdit claudeDoneMsg ::
    (claudeReplies (claudeOutput r.stdout)).map (fun p => .reply (p.1 ++ p.2))
  else
    let em0 := if pyStrip r.stderr = [] then pyStrip r.stdout else pyStrip r.stderr
    let em := if em0.length > 3800 then em0.take 3800 ++ claudeTruncMarker else em0
    [.statusEdit claudeFailMsg,
     .reply ("❌ 执行失败 (退出码: ".data ++ (toString r.return_code).data ++
       ")\n\n".data ++ em)]

/-- The `async for status_update in ...` consumption loop. -/
def claudeStreamEvents : List StatusUpdate → List Event
  | [] => []
  | .status m :: rest => .statusEdit ("💻 ".data ++ m) :: claudeStreamEvents rest
  | .progress m :: rest => .statusEdit ("⚙️ ".data ++ m) :: claudeStreamEvents rest
  | .result r :: rest => claudeResultEvents r ++ claudeStreamEvents rest

/-- Handler `claude_command`: validate, create status, then consume the adapter's
event stream. -/
def claude_command (args : List String) (stream : List StatusUpdate) : List Event :=
  if args = [] then [.reply claudeUsage]
  else .statusCreate claudeStartMsg :: claudeStreamEvents stream

/-! ## Code-execution adapter (`services/claude_code.py`)

A content block of the API response is embedded with its three relevant
dict entries; an absent key is `none`.  Tool-use payloads are modelled as
their already-stringified text (`str(tool_result)`), with Python
truthiness `tool_result ≠ ""`. -/

structure ContentBlock where
  type : Option String
  text : Option String
  content : Option String
deriving DecidableEq

/-- Python `"\n".join(parts)`. -/
def joinNL : List (List Char) → List Char
  | [] => []
  | [p] => p
  | p :: q :: rest => p ++ '\n' :: joinNL (q :: rest)

/-- The body of the `for content_block in data["content"]` loop: append the
block's contribution to the accumulated `result_parts`. -/
def extractStep (acc : List (List Char)) (b : ContentBlock) : List (List Char) :=
  if b.type = some "text" then acc ++ [(b.text.getD "").data]
  else if b.type = some "tool_use" then
    (if b.content.getD "" ≠ "" then acc ++ [(b.content.getD "").data] else acc)
  else acc

/-- Function `_extract_result_from_response(data)`: `data["content"]` is `none` when
the key is absent, otherwise the block list. -/
def extract_result_from_response (content : Option (List ContentBlock)) : List Char :=
  match content with
  | some blocks =>
    if blocks.length > 0 then
      let parts := blocks.foldl extractStep []
      if parts ≠ [] then joinNL parts else "Operation completed".data
    else "No response content".data
  | none => "No response content".data

/-- Outcome of the single HTTP POST to the API. -/
inductive HttpOutcome where
  | clientError (msg : List Char)
  | response (status : Nat) (body : List Char) (content : Option (List ContentBlock))
deriving DecidableEq

/-- Adapter `execute_claude_code(operation)`: `.error` is the raised exception's
message, `.ok` the returned dict.  `apiKey` is `config.CLAUDE_API_KEY`
(`""` when unset, matching Python falsiness). -/
def execute_claude_code (apiKey : String) (outcome : HttpOutcome) :
    Except (List Char) ExecResult :=
  if apiKey = "" then .error "CLAUDE_API_KEY is not configured".data
  else
    match outcome with
    | .clientError m => .error ("Network error: ".data ++ m)
    | .response status body content =>
      if status ≠ 200 then
        .error (("API returned status " ++ toString status ++ ": ").data ++ body)
      else
        .ok ⟨extract_result_from_response content, [], 0, true⟩

/-! ## Tool dispatch facade (`mcp_server.py`)

Each tool handler's Python body is embedded as a function returning
`Except msg (List TextContent)`: `.error` is an exception it lets escape
(to be caught by `call_tool`'s catch-all), `.ok` its returned list. -/

structure TextContent where
  text : List Char
deriving DecidableEq

structure SentMessage where
  chat_id : Int
  message_id : Int
deriving DecidableEq

/-- One received update's `.message`, when present. -/
structure MsgInfo where
  first_name : String
  username : String
  chat_id : Int
  text : String
  date : String
deriving DecidableEq

/-- Outcome of one `telegram.Bot` call: success, a `TelegramError`, or any
other exception (e.g. `get_bot`'s `ValueError` when the token is unset). -/
inductive TgOutcome (α : Type) where
  | ok (v : α)
  | telegramError (msg : List Char)
  | otherError (msg : List Char)
deriving DecidableEq

/-- Python falsiness of `arguments.get(key)` for a string argument. -/
def falsyOpt : Option String → Bool
  | none => true
  | some s => s = ""

/-- Tool handler `send_message(arguments)`. -/
def send_message (chat_id text : Option String) (tg : TgOutcome SentMessage) :
    Except (List Char) (List TextContent) :=
  if falsyOpt chat_id || falsyOpt text then
    .ok [⟨"Error: chat_id and text are required".data⟩]
  else
    match tg with
    | .ok m =>
      .ok [⟨("Message sent successfully!\nChat ID: " ++ toString m.chat_id ++
        "\nMessage ID: " ++ toString m.message_id).data⟩]
    | .telegramError e => .ok [⟨"Telegram error: ".data ++ e⟩]
    | .otherError e => .error e

/-- Python `updates[-limit:]` for a natural `limit`. -/
def lastSlice (limit : Nat) (l : List α) : List α :=
  if limit = 0 then l else l.drop (l.length - limit)

/-- The fixed-format text block rendered for one update with a message. -/
def updateBlock (m : MsgInfo) : List Char :=
  ("From: " ++ m.first_name ++ " (@" ++ m.username ++ ")\n" ++
   "Chat ID: " ++ toString m.chat_id ++ "\n" ++
   "Text: " ++ m.text ++ "\n" ++
   "Date: " ++ m.date ++ "\n\n").data

/-- Tool handler `get_updates(arguments)`: `limit` defaults to 10 when absent. -/
def get_updates (limit : Option Nat) (tg : TgOutcome (List (Option MsgInfo))) :
    Except (List Char) (List TextContent) :=
  let lim := limit.getD 10
  match tg with
  | .ok updates =>
    if updates = [] then .ok [⟨"No recent messages".data⟩]
    else
      .ok [⟨(lastSlice lim updates).foldl (fun acc u =>
        match u with
        | some m => acc ++ updateBlock m
        | none => acc) "Recent messages:\n\n".data⟩]
  | .telegramError e => .ok [⟨"Telegram error: ".data ++ e⟩]
  | .otherError e => .error e

/-- Dispatcher `call_tool(name, arguments)`: dispatch on the tool name, with the
catch-all that converts any escaped exception into an `"Error: ..."`
text item. -/
def call_tool (name : String) (chat_id text : Option String) (limit : Option Nat)
    (tgSend : TgOutcome SentMessage) (tgUpd : TgOutcome (List (Option MsgInfo))) :
    List TextContent :=
  let inner : Except (List Char) (List TextContent) :=
    if name = "send_telegram_message" then send_message chat_id text tgSend
    else if name = "get_telegram_updates" then get_updates limit tgUpd
    else .error ("Unknown tool: " ++ name).data
  match inner with
  | .ok r => r
  | .error e => [⟨"Error: ".data ++ e⟩]

/-! ## Helper lemmas -/

/-- Stripping the labels off enumerated labelled chunks and concatenating
restores the original string. -/
theorem labelled_chunks_flatten (label : Nat → List Char) (n : Nat) (hn : n ≠ 0)
    (l : List Char) :
    (((chunksOf n l).enum.map (fun p => (label p.1, p.2))).map Prod.snd).flatten = l := by
  rw [List.map_map]
  have h : (Prod.snd ∘ fun p : Nat × List Char => (label p.1, p.2)) = Prod.snd := by
    funext p; rfl
  rw [h, List.enum_map_snd, chunksOf_flatten n hn l]

theorem deepseekReplies_le (response : List Char) (h : response.length ≤ 4000) :
    deepseekReplies response = [(deepseekSingleLabel, response)] := by
  rw [deepseekReplies, if_neg (by omega)]

theorem deepseekReplies_gt (response : List Char) (h : 4000 < response.length) :
    (deepseekReplies response).length = (response.length + 3999) / 4000 ∧
    ((deepseekReplies response).map Prod.snd).flatten = response := by
  rw [deepseekReplies, if_pos (by omega)]
  constructor
  · rw [List.length_map, List.enum_length,
      chunksOf_length 4000 (by omega) response (by
        intro hc; rw [hc] at h; simp at h)]
    congr 1
  · exact labelled_chunks_flatten deepseekChunkLabel 4000 (by omega) response

theorem claudeReplies_le (output : List Char) (h : output.length ≤ 3800) :
    claudeReplies output = [(claudeSingleLabel, output)] := by
  rw [claudeReplies, if_neg (by omega)]

theorem claudeReplies_gt (output : List Char) (h : 3800 < output.length) :
    (claudeReplies output).length = (output.length + 3799) / 3800 ∧
    ((claudeReplies output).map Prod.snd).flatten = output := by
  rw [claudeReplies, if_pos (by omega)]
  constructor
  · rw [List.length_map, List.enum_length,
      chunksOf_length 3800 (by omega) output (by
        intro hc; rw [hc] at h; simp at h)]
    congr 1
  · exact labelled_chunks_flatten
      (fun i => claudeChunkLabel i (chunksOf 3800 output).length) 3800 (by omega) output

/-! ## Claim theorems -/

/-- C1: on the success path, an output of length at most the threshold
(4000 for the text-style deepseek reply, 3800 for the execution-style
claude reply) is sent as exactly one reply containing the full text; a
longer output is sent as `⌈len/threshold⌉` replies whose label-stripped
bodies concatenate, in order, to the original output exactly. -/
theorem success_output_chunking (response output : List Char) :
    (response.length ≤ 4000 →
      deepseekReplies response = [(deepseekSingleLabel, response)]) ∧
    (4000 < response.length →
      (deepseekReplies response).length = (response.length + 3999) / 4000 ∧
      ((deepseekReplies response).map Prod.snd).flatten = response) ∧
    (output.length ≤ 3800 →
      claudeReplies output = [(claudeSingleLabel, output)]) ∧
    (3800 < output.length →
      (claudeReplies output).length = (output.length + 3799) / 3800 ∧
      ((claudeReplies output).map Prod.snd).flatten = output) :=
  ⟨deepseekReplies_le response, deepseekReplies_gt response,
   claudeReplies_le output, claudeReplies_gt output⟩

/-- Witness for C1 at a 4001-character response and a 3801-character
output. -/
theorem success_output_chunking_witness :
    (deepseekReplies (List.replicate 4001 'a')).length = 2 ∧
    ((deepseekReplies (List.replicate 4001 'a')).map Prod.snd).flatten =
      List.replicate 4001 'a' ∧
    claudeReplies (List.replicate 3800 'b') =
      [(claudeSingleLabel, List.replicate 3800 'b')] ∧
    ((claudeReplies (List.replicate 3801 'b')).map Prod.snd).flatten =
      List.replicate 3801 'b' := by
  have h := success_output_chunking (List.replicate 4001 'a') (List.replicate 3801 'b')
  have hd := h.2.1 (by rw [List.length_replicate]; omega)
  have hc := h.2.2.2 (by rw [List.length_replicate]; omega)
  have h' := success_output_chunking (List.replicate 4001 'a') (List.replicate 3800 'b')
  refine ⟨?_, hd.2, h'.2.2.1 (by rw [List.length_replicate]), hc.2⟩
  rw [hd.1, List.length_replicate]

/-- The /fetch success path, with the truncation decision exposed. -/
theorem fetch_command_ok (url : String) (rest : List String) (content : List Char) :
    fetch_command (url :: rest) (.ok content) =
      [.reply ("Fetching content from: " ++ url ++ "\n\nPlease wait...").data,
       .reply ("Content:\n\n".data ++
         (if 4000 < content.length then content.take 4000 ++ fetchTruncMarker
          else content))] := rfl

/-- C2 counterexample: on a 4001-character fetched content the /fetch
handler sends a single content reply whose body is the first 4000
characters plus a truncation marker — not `⌈4001/4000⌉ = 2` chunk replies
concatenating to the original content. -/
theorem fetch_truncates_not_chunks :
    4000 < (List.replicate 4001 'a').length ∧
    fetch_command ["u"] (.ok (List.replicate 4001 'a')) =
      [.reply ("Fetching content from: " ++ "u" ++ "\n\nPlease wait...").data,
       .reply ("Content:\n\n".data ++ (List.replicate 4000 'a' ++ fetchTruncMarker))] ∧
    ("Content:\n\n".data ++ (List.replicate 4000 'a' ++ fetchTruncMarker)).length ≠
      ("Content:\n\n".data ++ List.replicate 4001 'a').length := by
  refine ⟨by rw [List.length_replicate]; omega, ?_, ?_⟩
  · rw [fetch_command_ok, if_pos (by rw [List.length_replicate]; omega),
      List.take_replicate, min_eq_left (by omega)]
  · intro hcon
    rw [List.length_append, List.length_append, List.length_append,
      List.length_replicate, List.length_replicate] at hcon
    have hm : fetchTruncMarker.length = 17 := rfl
    omega

/-- C2 as amended: the success-path chunking policy (one reply for output
at most the threshold, fixed-size ordered chunks otherwise) holds for the
/deepseek (4000) and /claude (3800) handlers, while the /fetch handler
never chunks: it always sends exactly one content reply, truncating
content longer than 4000 characters to its first 4000 plus a marker. -/
theorem finalize_policy (response output content : List Char)
    (url : String) (rest : List String) :
    (response.length ≤ 4000 →
      deepseekReplies response = [(deepseekSingleLabel, response)]) ∧
    (4000 < response.length →
      (deepseekReplies response).length = (response.length + 3999) / 4000 ∧
      ((deepseekReplies response).map Prod.snd).flatten = response) ∧
    (output.length ≤ 3800 →
      claudeReplies output = [(claudeSingleLabel, output)]) ∧
    (3800 < output.length →
      (claudeReplies output).length = (output.length + 3799) / 3800 ∧
      ((claudeReplies output).map Prod.snd).flatten = output) ∧
    (fetch_command (url :: rest) (.ok content)).length = 2 ∧
    (content.length ≤ 4000 →
      fetch_command (url :: rest) (.ok content) =
        [.reply ("Fetching content from: " ++ url ++ "\n\nPlease wait...").data,
         .reply ("Content:\n\n".data ++ content)]) ∧
    (4000 < content.length →
      fetch_command (url :: rest) (.ok content) =
        [.reply ("Fetching content from: " ++ url ++ "\n\nPlease wait...").data,
         .reply ("Content:\n\n".data ++ (content.take 4000 ++ fetchTruncMarker))]) := by
  refine ⟨deepseekReplies_le response, deepseekReplies_gt response,
    claudeReplies_le output, claudeReplies_gt output, rfl, ?_, ?_⟩
  · intro h
    rw [fetch_command_ok, if_neg (by omega)]
  · intro h
    rw [fetch_command_ok, if_pos h]

/-- Witness for C2's amended theorem at concrete inputs. -/
theorem finalize_policy_witness :
    deepseekReplies ['x'] = [(deepseekSingleLabel, ['x'])] ∧
    ((claudeReplies (List.replicate 3801 'c')).map Prod.snd).flatten =
      List.replicate 3801 'c' ∧
    fetch_command ["url"] (.ok ['y']) =
      [.reply ("Fetching content from: " ++ "url" ++ "\n\nPlease wait...").data,
       .reply ("Content:\n\n".data ++ ['y'])] := by
  have h := finalize_policy ['x'] (List.replicate 3801 'c') ['y'] "url" []
  exact ⟨h.1 (by simp), (h.2.2.2.1 (by rw [List.length_replicate]; omega)).2,
    h.2.2.2.2.2.1 (by simp)⟩

/-- C3: when the transport fails transiently on every attempt, `safe_edit`
makes exactly 3 attempts, waits after each of the first two (2^0 = 1 and
2^1 = 2 time units), and returns `None` instead of raising, so the calling
handler continues execution. -/
theorem safe_edit_never_raises (α : Type) (t : Nat → TOutcome α)
    (ht : ∀ i, i < 3 → t i = .transient) :
    safe_edit t = ⟨.returned none, 3, [1, 2]⟩ := by
  have h0 := ht 0 (by omega)
  have h1 := ht 1 (by omega)
  have h2 := ht 2 (by omega)
  simp [safe_edit, safeEditGo, h0, h1, h2]

/-- Witness for C3 at an always-transiently-failing transport. -/
theorem safe_edit_never_raises_witness :
    safe_edit (fun _ => (TOutcome.transient : TOutcome Nat)) =
      ⟨.returned none, 3, [1, 2]⟩ :=
  safe_edit_never_raises Nat (fun _ => .transient) (fun _ _ => rfl)

/-- C4: a send or edit whose transport fails transiently on attempts 1 and
2 and succeeds on attempt 3 performs exactly two backoff waits of 2^0 = 1
and 2^1 = 2 time units and returns the successful transport result,
identical to the result of an immediately successful call. -/
theorem retry_transparent (α : Type) (t : Nat → TOutcome α) (m : α)
    (h0 : t 0 = .transient) (h1 : t 1 = .transient) (h2 : t 2 = .ok m) :
    safe_reply t = ⟨.sent m, 3, [1, 2]⟩ ∧
    safe_edit t = ⟨.returned (some m), 3, [1, 2]⟩ ∧
    (safe_reply t).result = (safe_reply (fun _ => TOutcome.ok m)).result ∧
    (safe_edit t).result = (safe_edit (fun _ => TOutcome.ok m)).result := by
  refine ⟨?_, ?_, ?_, ?_⟩ <;>
    simp [safe_reply, safe_edit, safeReplyGo, safeEditGo, h0, h1, h2]

/-- Witness for C4 at a transport succeeding on its third attempt. -/
theorem retry_transparent_witness :
    safe_reply (fun i => if i < 2 then TOutcome.transient else TOutcome.ok 7) =
      ⟨.sent 7, 3, [1, 2]⟩ ∧
    safe_edit (fun i => if i < 2 then TOutcome.transient else TOutcome.ok 7) =
      ⟨.returned (some 7), 3, [1, 2]⟩ :=
  have h := retry_transparent Nat
    (fun i => if i < 2 then TOutcome.transient else TOutcome.ok 7) 7
    (by decide) (by decide) (by decide)
  ⟨h.1, h.2.1⟩

/-- C5 counterexample: HTTP 201 is a 2xx success status, yet
`execute_claude_code` fails on it — the source checks `status != 200`,
not membership in 2xx. -/
theorem status_201_rejected :
    (200 ≤ 201 ∧ 201 < 300) ∧
    execute_claude_code "key" (.response 201 "oops".data (some [])) =
      .error (("API returned status " ++ toString 201 ++ ": ").data ++ "oops".data) := by
  exact ⟨⟨by omega, by omega⟩, rfl⟩

/-- C5 as amended: with the API key configured, `execute_claude_code`
fails with the HTTP status and response body in the error message exactly
when the status is not 200, and on a 200 response it extracts and returns
a result. -/
theorem execute_error_iff_not_200 (apiKey : String) (hk : apiKey ≠ "")
    (status : Nat) (body : List Char) (content : Option (List ContentBlock)) :
    (status ≠ 200 →
      execute_claude_code apiKey (.response status body content) =
        .error (("API returned status " ++ toString status ++ ": ").data ++ body)) ∧
    (status = 200 →
      execute_claude_code apiKey (.response status body content) =
        .ok ⟨extract_result_from_response content, [], 0, true⟩) := by
  constructor <;> intro h <;> simp [execute_claude_code, hk, h]

/-- Witness for C5's amended theorem at statuses 500 and 200. -/
theorem execute_error_iff_not_200_witness :
    execute_claude_code "key" (.response 500 "boom".data none) =
      .error (("API returned status " ++ toString 500 ++ ": ").data ++ "boom".data) ∧
    execute_claude_code "key" (.response 200 [] none) =
      .ok ⟨extract_result_from_response none, [], 0, true⟩ :=
  ⟨(execute_error_iff_not_200 "key" (by decide) 500 "boom".data none).1 (by omega),
   (execute_error_iff_not_200 "key" (by decide) 200 [] none).2 rfl⟩

/-- The contribution of each content block, in order; the recursive
counterpart of the `result_parts` accumulation loop. -/
def extractParts : List ContentBlock → List (List Char)
  | [] => []
  | b :: rest =>
    if b.type = some "text" then (b.text.getD "").data :: extractParts rest
    else if b.type = some "tool_use" then
      (if b.content.getD "" ≠ "" then (b.content.getD "").data :: extractParts rest
       else extractParts rest)
    else extractParts rest

theorem extractStep_foldl (blocks : List ContentBlock) (acc : List (List Char)) :
    blocks.foldl extractStep acc = acc ++ extractParts blocks := by
  induction blocks generalizing acc with
  | nil => simp [extractParts]
  | cons b rest ih =>
    rw [List.foldl_cons]
    by_cases h1 : b.type = some "text"
    · simp [extractStep, extractParts, h1, ih]
    · by_cases h2 : b.type = some "tool_use"
      · by_cases h3 : b.content.getD "" = ""
        · simp [extractStep, extractParts, h1, h2, h3, ih]
        · simp [extractStep, extractParts, h1, h2, h3, ih]
      · simp [extractStep, extractParts, h1, h2, ih]

/-- C6 counterexample: an empty content list has no text or tool_use
blocks, but the extractor returns "No response content", not the literal
"Operation completed" the claim requires. -/
theorem extract_empty_content :
    extract_result_from_response (some []) = "No response content".data ∧
    extract_result_from_response none = "No response content".data ∧
    "No response content".data ≠ "Operation completed".data := by
  refine ⟨rfl, rfl, by decide⟩

/-- C6 as amended: on a present, non-empty content list the extractor
returns the newline-join of all text blocks' text and all tool_use blocks'
non-empty stringified payloads, in response order, or "Operation
completed" when no such parts exist; an absent or empty content list
yields "No response content" instead. -/
theorem extract_result_characterization (blocks : List ContentBlock)
    (hb : blocks ≠ []) :
    extract_result_from_response (some blocks) =
      (if extractParts blocks = [] then "Operation completed".data
       else joinNL (extractParts blocks)) ∧
    extract_result_from_response none = "No response content".data ∧
    extract_result_from_response (some []) = "No response content".data := by
  refine ⟨?_, rfl, rfl⟩
  show (if 0 < blocks.length then
      (if blocks.foldl extractStep [] ≠ [] then joinNL (blocks.foldl extractStep [])
       else "Operation completed".data)
    else "No response content".data) = _
  rw [if_pos (List.length_pos.mpr hb), extractStep_foldl blocks [], List.nil_append]
  by_cases h : extractParts blocks = [] <;> simp [h]

/-- Witness for C6's amended theorem at a one-block content list. -/
theorem extract_result_characterization_witness :
    extract_result_from_response (some [⟨some "text", some "hi", none⟩]) =
      (if extractParts [⟨some "text", some "hi", none⟩] = [] then
        "Operation completed".data
       else joinNL (extractParts [⟨some "text", some "hi", none⟩])) ∧
    extract_result_from_response none = "No response content".data ∧
    extract_result_from_response (some []) = "No response content".data :=
  extract_result_characterization [⟨some "text", some "hi", none⟩] (by decide)

/-- C7: whenever `execute_claude_code` returns normally, the returned
record reports success with return code 0 and empty stderr. -/
theorem execute_ok_shape (apiKey : String) (outcome : HttpOutcome) (r : ExecResult)
    (h : execute_claude_code apiKey outcome = .ok r) :
    r.success = true ∧ r.return_code = 0 ∧ r.stderr = [] := by
  unfold execute_claude_code at h
  by_cases hk : apiKey = ""
  · simp [hk] at h
  · rw [if_neg hk] at h
    cases outcome with
    | clientError m => simp at h
    | response s b c =>
      have h' : (if s ≠ 200 then
          (.error (("API returned status " ++ toString s ++ ": ").data ++ b) :
            Except (List Char) ExecResult)
        else .ok ⟨extract_result_from_response c, [], 0, true⟩) = .ok r := h
      by_cases hs : s ≠ 200
      · rw [if_pos hs] at h'; simp at h'
      · rw [if_neg hs] at h'
        cases h'
        exact ⟨rfl, rfl, rfl⟩

/-- Witness for C7 at a 200 response. -/
theorem execute_ok_shape_witness :
    (⟨extract_result_from_response none, [], 0, true⟩ : ExecResult).success = true ∧
    (⟨extract_result_from_response none, [], 0, true⟩ : ExecResult).return_code = 0 ∧
    (⟨extract_result_from_response none, [], 0, true⟩ : ExecResult).stderr = [] :=
  execute_ok_shape "key" (.response 200 [] none) _ rfl

/-- C8: with an empty argument list, each of the three handlers sends
exactly one usage-help reply and creates no status message, whatever the
backend would have done. -/
theorem missing_args_single_reply (bf : Except (List Char) (List Char))
    (bq : Except QAError (List Char)) (s : List StatusUpdate) :
    fetch_command [] bf = [.reply fetchUsageText] ∧
    deepseek_command [] bq = [.reply deepseekUsage] ∧
    claude_command [] s = [.reply claudeUsage] :=
  ⟨rfl, rfl, rfl⟩

theorem send_message_ok_length (c t : Option String) (tg : TgOutcome SentMessage)
    (r : List TextContent) (h : send_message c t tg = .ok r) : r.length = 1 := by
  unfold send_message at h
  by_cases hm : falsyOpt c || falsyOpt t
  · rw [if_pos hm] at h
    cases h
    rfl
  · rw [if_neg hm] at h
    cases tg with
    | ok m => cases h; rfl
    | telegramError e => cases h; rfl
    | otherError e => simp at h

theorem get_updates_ok_length (limit : Option Nat)
    (tg : TgOutcome (List (Option MsgInfo)))
    (r : List TextContent) (h : get_updates limit tg = .ok r) : r.length = 1 := by
  cases tg with
  | ok updates =>
    simp only [get_updates] at h
    by_cases hu : updates = []
    · rw [if_pos hu] at h
      cases h
      rfl
    · rw [if_neg hu] at h
      cases h
      rfl
  | telegramError e =>
    simp only [get_updates] at h
    cases h
    rfl
  | otherError e => simp [get_updates] at h

/-- C9: every facade tool call returns a list of exactly one text item and
never raises: missing required send arguments yield a textual error,
Telegram backend errors come back as textual error content, and every
other escaped error is converted at the dispatch boundary to a text item
prefixed "Error: " (including the unknown-tool case). -/
theorem call_tool_single_text (name : String) (chat_id text : Option String)
    (limit : Option Nat) (tgSend : TgOutcome SentMessage)
    (tgUpd : TgOutcome (List (Option MsgInfo))) :
    (call_tool name chat_id text limit tgSend tgUpd).length = 1 ∧
    (name = "send_telegram_message" → (falsyOpt chat_id || falsyOpt text) = true →
      call_tool name chat_id text limit tgSend tgUpd =
        [⟨"Error: chat_id and text are required".data⟩]) ∧
    (∀ e, name = "send_telegram_message" → tgSend = .telegramError e →
      falsyOpt chat_id = false → falsyOpt text = false →
      call_tool name chat_id text limit tgSend tgUpd =
        [⟨"Telegram error: ".data ++ e⟩]) ∧
    (∀ e, name = "get_telegram_updates" → tgUpd = .telegramError e →
      call_tool name chat_id text limit tgSend tgUpd =
        [⟨"Telegram error: ".data ++ e⟩]) ∧
    (∀ e, name = "send_telegram_message" → tgSend = .otherError e →
      falsyOpt chat_id = false → falsyOpt text = false →
      call_tool name chat_id text limit tgSend tgUpd =
        [⟨"Error: ".data ++ e⟩]) ∧
    (∀ e, name = "get_telegram_updates" → tgUpd = .otherError e →
      call_tool name chat_id text limit tgSend tgUpd =
        [⟨"Error: ".data ++ e⟩]) ∧
    (name ≠ "send_telegram_message" → name ≠ "get_telegram_updates" →
      call_tool name chat_id text limit tgSend tgUpd =
        [⟨"Error: ".data ++ ("Unknown tool: " ++ name).data⟩]) := by
  refine ⟨?_, ?_, ?_, ?_, ?_, ?_, ?_⟩
  · unfold call_tool
    by_cases h1 : name = "send_telegram_message"
    · rw [if_pos h1]
      cases hs : send_message chat_id text tgSend with
      | ok r => exact send_message_ok_length chat_id text tgSend r hs
      | error e => rfl
    · rw [if_neg h1]
      by_cases h2 : name = "get_telegram_updates"
      · rw [if_pos h2]
        cases hu : get_updates limit tgUpd with
        | ok r => exact get_updates_ok_length limit tgUpd r hu
        | error e => rfl
      · rw [if_neg h2]
        rfl
  · intro h1 hm
    simp [call_tool, h1, send_message, hm]
  · intro e h1 htg hc ht
    simp [call_tool, h1, send_message, hc, ht, htg]
  · intro e h2 htg
    simp [call_tool, h2, get_updates, htg]
  · intro e h1 htg hc ht
    simp [call_tool, h1, send_message, hc, ht, htg]
  · intro e h2 htg
    simp [call_tool, h2, get_updates, htg]
  · intro h1 h2
    simp [call_tool, h1, h2]

/-- Witness for C9 at a missing-argument send call and an unknown tool. -/
theorem call_tool_single_text_witness :
    (call_tool "send_telegram_message" none (some "hi") none
      (.ok ⟨1, 2⟩) (.ok [])).length = 1 ∧
    call_tool "send_telegram_message" none (some "hi") none
      (.ok ⟨1, 2⟩) (.ok []) = [⟨"Error: chat_id and text are required".data⟩] ∧
    call_tool "nope" none none none (.ok ⟨1, 2⟩) (.ok []) =
      [⟨"Error: ".data ++ ("Unknown tool: " ++ "nope").data⟩] := by
  have h := call_tool_single_text "send_telegram_message" none (some "hi") none
    (.ok ⟨1, 2⟩) (.ok [])
  have h2 := call_tool_single_text "nope" none none none (.ok ⟨1, 2⟩) (.ok [])
  exact ⟨h.1, h.2.1 rfl rfl, h2.2.2.2.2.2.2 (by decide) (by decide)⟩

/-- C10: on the /claude success path with a stdout that strips to empty,
the handler sends exactly one reply carrying the fixed fallback text
"执行成功，无输出内容。". -/
theorem claude_empty_output_fallback (args : List String) (ha : args ≠ [])
    (r : ExecResult) (hs : r.success = true) (he : pyStrip r.stdout = []) :
    claude_command args [.result r] =
      [.statusCreate claudeStartMsg, .statusEdit claudeDoneMsg,
       .reply (claudeSingleLabel ++ claudeFallback)] := by
  have h1 : claudeOutput r.stdout = claudeFallback := by
    rw [claudeOutput, if_pos he]
  have h2 : claudeReplies claudeFallback = [(claudeSingleLabel, claudeFallback)] :=
    claudeReplies_le claudeFallback (by decide)
  rw [claude_command, if_neg ha]
  show _ :: (claudeResultEvents r ++ []) = _
  rw [claudeResultEvents, if_pos hs, h1, h2, List.map_cons, List.map_nil]
  rfl

/-- Witness for C10 at a whitespace-only stdout. -/
theorem claude_empty_output_fallback_witness :
    claude_command ["op"] [.result ⟨" \n".data, [], 0, true⟩] =
      [.statusCreate claudeStartMsg, .statusEdit claudeDoneMsg,
       .reply (claudeSingleLabel ++ claudeFallback)] :=
  claude_empty_output_fallback ["op"] (by decide) ⟨" \n".data, [], 0, true⟩ rfl rfl

end TelegramBot
